import Mathlib

/-!
# Verification of the Monad template generator

Shallow embedding of `src/templates/monad.ts`: the wizard answer record, the
chain configuration record, the static contract-address table, and the four
template-generator functions (`generateMonadPackageJson`, `generateMonadEnv`,
`generateMonadRegisterScript`, `generateMonadReadme`).  Template literals from
the TypeScript source are transcribed verbatim into Lean string constants;
TypeScript-level interpolations become explicit string concatenation.
-/

/-- Chain configuration record (`ChainConfig` in `src/config.ts`, as used by
the generators: `name`, `chainId`, `rpcUrl`, `scanPath`). -/
structure ChainConfig where
  name : String
  chainId : Nat
  rpcUrl : String
  scanPath : String
deriving DecidableEq

/-- The wizard answer record (`WizardAnswers` in `src/wizard.ts`, fields as
populated in `test-register.ts`).  `generatedPrivateKey` is an optional field,
modelled as `Option String`. -/
structure WizardAnswers where
  projectDir : String
  agentName : String
  agentDescription : String
  agentImage : String
  features : List String
  a2aStreaming : Bool
  chain : String
  trustModels : List String
  agentWallet : String
  generatedPrivateKey : Option String
deriving DecidableEq

/-- A pair of registry addresses (one tier of `MONAD_CONTRACTS`). -/
structure ContractPair where
  identityRegistry : String
  reputationRegistry : String
deriving DecidableEq

/-- The two tiers of `MONAD_CONTRACTS`. -/
structure MonadContractTable where
  mainnet : ContractPair
  testnet : ContractPair
deriving DecidableEq

/-- `MONAD_CONTRACTS` constant from `monad.ts` (lines 14-23). -/
def MONAD_CONTRACTS : MonadContractTable :=
  ⟨⟨"0x8004A169FB4a3325136EB29fA0ceB6D2e539a432",
    "0x8004BAa17C55a88189AE136b182e5fdA19dE9b63"⟩,
   ⟨"0x8004A818BFB912233c491871b3d84c89A494BD9e",
    "0x8004B663056A597Dffe9eCcC1965A193B7388713"⟩⟩

/-- `isMonadChain` from `monad.ts` (lines 25-27). -/
def isMonadChain (chain : String) : Bool :=
  chain = "monad-mainnet" || chain = "monad-testnet"

/-- `getMonadContracts` from `monad.ts` (lines 29-31):
`chain === "monad-mainnet" ? MONAD_CONTRACTS.mainnet : MONAD_CONTRACTS.testnet`. -/
def getMonadContracts (chain : String) : ContractPair :=
  if chain = "monad-mainnet" then MONAD_CONTRACTS.mainnet else MONAD_CONTRACTS.testnet

/-- Modelled from the spec: `hasFeature` lives in `src/wizard.ts`, which is not
part of the provided sources; the spec describes it as "a feature-membership
predicate (`hasFeature`)" over the `features` set of recognized identifiers. -/
def hasFeature (answers : WizardAnswers) (f : String) : Bool :=
  answers.features.contains f

/-- ECMAScript `\s` character class (WhiteSpace ∪ LineTerminator), used by the
`/\s+/g` regex in `monad.ts` line 66. -/
def isJsSpace (c : Char) : Bool :=
  decide (c.toNat = 9 ∨ c.toNat = 10 ∨ c.toNat = 11 ∨ c.toNat = 12 ∨ c.toNat = 13 ∨
    c.toNat = 32 ∨ c.toNat = 160 ∨ c.toNat = 5760 ∨
    (8192 ≤ c.toNat ∧ c.toNat ≤ 8202) ∨ c.toNat = 8232 ∨ c.toNat = 8233 ∨
    c.toNat = 8239 ∨ c.toNat = 8287 ∨ c.toNat = 12288 ∨ c.toNat = 65279)

/-- ASCII upper-case letter test. -/
def isAsciiUpper (c : Char) : Bool :=
  decide (65 ≤ c.toNat ∧ c.toNat ≤ 90)

/-- ASCII lower-case letter test. -/
def isAsciiLower (c : Char) : Bool :=
  decide (97 ≤ c.toNat ∧ c.toNat ≤ 122)

/-- `String.prototype.toLowerCase`, restricted to the ASCII letters that the
generator's inputs use: `A`-`Z` map to `a`-`z`, everything else is unchanged. -/
def jsLowerChar (c : Char) : Char :=
  if 65 ≤ c.toNat ∧ c.toNat ≤ 90 then Char.ofNat (c.toNat + 32) else c

/-- `replace(/\s+/g, "-")` on a character list: every maximal run of
whitespace characters collapses to a single `-`.  When two adjacent
characters are both whitespace the first is dropped (the run is still open);
a whitespace character followed by a non-whitespace character (or the end)
closes the run and emits `-`. -/
def squashWs : List Char → List Char
  | [] => []
  | [c] => if isJsSpace c then ['-'] else [c]
  | c :: d :: cs =>
    if isJsSpace c && isJsSpace d then squashWs (d :: cs)
    else (if isJsSpace c then '-' else c) :: squashWs (d :: cs)

/-- `s.toLowerCase().replace(/\s+/g, "-")` (`monad.ts` lines 66 and 98). -/
def jsSlug (s : String) : String :=
  String.mk (squashWs (s.data.map jsLowerChar))

/-- `agentSlug` local of `generateMonadRegisterScript` (`monad.ts` line 98);
the same expression also produces the manifest `name` (line 66). -/
def agentSlug (answers : WizardAnswers) : String :=
  jsSlug answers.agentName

/-- `.replace(/"/g, '\\"')` on a character list (`monad.ts` lines 175-176):
each `"` becomes `\"`. -/
def jsEscQ : List Char → List Char
  | [] => []
  | c :: cs => if c = '"' then '\\' :: '"' :: jsEscQ cs else c :: jsEscQ cs

/-- String form of `jsEscQ`. -/
def jsEscapeQuotes (s : String) : String :=
  String.mk (jsEscQ s.data)

/-- JavaScript `Array.prototype.join(sep)`. -/
def joinSep (sep : String) : List String → String
  | [] => ""
  | [x] => x
  | x :: y :: rest => x ++ sep ++ joinSep sep (y :: rest)

/-- Hexadecimal digit character (lower case), for JSON control-character
escapes. -/
def hexDigitChar (n : Nat) : Char :=
  if n < 10 then Char.ofNat (48 + n) else Char.ofNat (87 + n)

/-- `JSON.stringify` escaping of a single character inside a string value. -/
def jsonEscChar (c : Char) : List Char :=
  if c = '"' then ['\\', '"']
  else if c = '\\' then ['\\', '\\']
  else if c = '\x08' then ['\\', 'b']
  else if c = '\x09' then ['\\', 't']
  else if c = '\x0a' then ['\\', 'n']
  else if c = '\x0c' then ['\\', 'f']
  else if c = '\x0d' then ['\\', 'r']
  else if c.toNat < 32 then
    ['\\', 'u', '0', '0', hexDigitChar (c.toNat / 16), hexDigitChar (c.toNat % 16)]
  else [c]

/-- A JSON string literal as produced by `JSON.stringify`. -/
def jsonQuote (s : String) : String :=
  "\x22" ++ String.mk (s.data.flatMap jsonEscChar) ++ "\x22"

/-- `JSON.stringify(obj, null, 2)` rendering of a string-valued object that
sits one level deep in the manifest (the `scripts` / `dependencies` /
`devDependencies` objects): entries indented four spaces, closing brace
indented two. -/
def jsonObjBlock (pairs : List (String × String)) : String :=
  if pairs.isEmpty then "\x7b\x7d"
  else
    "\x7b\n" ++
      joinSep (",\n") (pairs.map (fun p => "    " ++ jsonQuote p.1 ++ ": " ++ jsonQuote p.2)) ++
      "\n  \x7d"

/-- The `scripts` record built by `generateMonadPackageJson`
(`monad.ts` lines 34-37, 52, 60): base entries, then the `a2a` entry,
then the `mcp` entry, in source order. -/
def monadScripts (answers : WizardAnswers) : List (String × String) :=
  let base := [("build", "tsc"), ("register", "tsx src/register.ts")]
  let s1 := if hasFeature answers ("a2a") then base ++ [("start:a2a", "tsx src/a2a-server.ts")] else base
  if hasFeature answers ("mcp") then s1 ++ [("start:mcp", "tsx src/mcp-server.ts")] else s1

/-- The `dependencies` record built by `generateMonadPackageJson`
(`monad.ts` lines 39-43, 53-54, 61). -/
def monadDependencies (answers : WizardAnswers) : List (String × String) :=
  let base := [("viem", "^2.21.0"), ("dotenv", "^16.3.1"), ("openai", "^4.68.0")]
  let s1 := if hasFeature answers ("a2a") then base ++ [("express", "^4.18.2"), ("uuid", "^9.0.0")] else base
  if hasFeature answers ("mcp") then s1 ++ [("@modelcontextprotocol/sdk", "^1.0.0")] else s1

/-- The `devDependencies` record built by `generateMonadPackageJson`
(`monad.ts` lines 45-49, 55-56). -/
def monadDevDependencies (answers : WizardAnswers) : List (String × String) :=
  let base := [("@types/node", "^20.10.0"), ("tsx", "^4.7.0"), ("typescript", "^5.3.0")]
  if hasFeature answers ("a2a") then base ++ [("@types/express", "^4.17.21"), ("@types/uuid", "^9.0.7")] else base

/-- `answers.generatedPrivateKey || "your_private_key_here"`
(`monad.ts` line 80): JavaScript `||` falls through to the placeholder both
when the field is absent and when it is the (falsy) empty string. -/
def privateKeyValue (answers : WizardAnswers) : String :=
  match answers.generatedPrivateKey with
  | some s => if s.isEmpty then "your_private_key_here" else s
  | none => "your_private_key_here"

/-- `chain.chainId === 143 ? "" : "Testnet"` (`monad.ts` lines 148, 244, 249). -/
def monadChainSuffix (chain : ChainConfig) : String :=
  if chain.chainId = 143 then "" else "Testnet"

/-- `hasX ? s : ""` — a feature-conditional template fragment. -/
def condStr (b : Bool) (s : String) : String :=
  if b then s else ""

/-- Transaction-flow fragment 1 of the registration script: gas estimation for the register call. -/
def txFrag1 : String :=
  "const gasEstimate = await publicClient.estimateContractGas(\x7b"

/-- Transaction-flow fragment 2 of the registration script: transaction submission with the 20 percent gas buffer. -/
def txFrag2 : String :=
  "gas: gasEstimate * 120n / 100n, // 20% buffer"

/-- Transaction-flow fragment 3 of the registration script: waiting for the transaction receipt. -/
def txFrag3 : String :=
  "const receipt = await publicClient.waitForTransactionReceipt(\x7b hash \x7d);"

/-- Transaction-flow fragment 4 of the registration script: treating a reverted receipt as fatal. -/
def txFrag4 : String :=
  "if (receipt.status === \x27reverted\x27) \x7b\n    throw new Error(\x27Transaction reverted\x27);\n  \x7d"

/-- Transaction-flow fragment 5 of the registration script: the sentinel default for the agent identifier. -/
def txFrag5 : String :=
  "let agentId = \x27unknown\x27;"

/-- Transaction-flow fragment 6 of the registration script: locating the mint (ERC-721 Transfer) event by its topic-0 signature. -/
def txFrag6 : String :=
  "const transferLog = receipt.logs.find(log => log.topics[0] === TRANSFER_SIGNATURE);"

/-- Transaction-flow fragment 7 of the registration script: extracting the agent identifier from the third indexed topic. -/
def txFrag7 : String :=
  "if (transferLog && transferLog.topics[3]) \x7b\n    agentId = BigInt(transferLog.topics[3]).toString();\n  \x7d"

/-- Text of the registration script between the transaction-flow fragments. -/
def txGap0 : String :=
  "...\x27);\n  console.log(\x60   Registry: $\x7bIDENTITY_REGISTRY\x7d\x60);\n  console.log(\x60   Agent URI: $\x7bagentURI\x7d\x60);\n\n  // Estimate gas first\n  "

/-- Text of the registration script between the transaction-flow fragments. -/
def txGap1 : String :=
  "\n    address: IDENTITY_REGISTRY,\n    abi: IDENTITY_REGISTRY_ABI,\n    functionName: \x27register\x27,\n    args: [agentURI],\n    account: account.address,\n  \x7d);\n\n  console.log(\x60   Estimated gas: $\x7bgasEstimate\x7d\x60);\n\n  // Send transaction with buffer\n  const hash = await walletClient.writeContract(\x7b\n    address: IDENTITY_REGISTRY,\n    abi: IDENTITY_REGISTRY_ABI,\n    functionName: \x27register\x27,\n    args: [agentURI],\n    "

/-- Text of the registration script between the transaction-flow fragments. -/
def txGap2 : String :=
  "\n  \x7d);\n\n  console.log(\x60   Tx hash: $\x7bhash\x7d\x60);\n  console.log(\x27   Waiting for confirmation...\x27);\n\n  // Wait for receipt\n  "

/-- Text of the registration script between the transaction-flow fragments. -/
def txGap3 : String :=
  "\n  \n  "

/-- Text of the registration script between the transaction-flow fragments. -/
def txGap4 : String :=
  "\n\n  console.log(\x60   Confirmed in block $\x7breceipt.blockNumber\x7d\x60);\n\n  // Parse agentId from Transfer event (ERC-721 mint)\n  // Transfer(address indexed from, address indexed to, uint256 indexed tokenId)\n  // tokenId = agentId, located in topics[3]\n  const TRANSFER_SIGNATURE = \x270xddf252ad1be2c89b69c2b068fc378daa952ba7f163c4a11628f55a4df523b3ef\x27;\n  \n  "

/-- Text of the registration script between the transaction-flow fragments. -/
def txGap5 : String :=
  "\n  "

/-- Text of the registration script between the transaction-flow fragments. -/
def txGap6 : String :=
  "\n  "

/-- Text of the registration script between the transaction-flow fragments. -/
def txGap7 : String :=
  "\n\n  console.log(\x27\x27);\n  console.log(\x27\u201a\u00fa\u00d6 Agent registered successfully!\x27);\n  console.log(\x27\x27);\n  console.log(\x27\uf8ff\u00fc\u00dc\u00ee Agent ID:\x27, agentId);\n  console.log(\x27\uf8ff\u00fc\u00eb\u00f5 Owner:\x27, account.address);\n  console.log(\x27\x27);\n  console.log(\x27\uf8ff\u00fc\u00e5\u00ea View on 8004scan:\x27);\n  console.log(\x60   https://www.8004scan.io/agents/"

def envLit0 : String :=
  "# Required for registration\nPRIVATE_KEY="

def envLit1 : String :=
  "\n\n# RPC URL for "

def envLit2 : String :=
  "\nRPC_URL="

def envLit3 : String :=
  "\n\n# Pinata JWT for IPFS upload (get from https://pinata.cloud)\nPINATA_JWT=your_pinata_jwt_here\n\n# OpenAI API key for LLM agent\nOPENAI_API_KEY=your_openai_api_key_here\n"

def regLit0 : String :=
  "/**\n * ERC-8004 Agent Registration Script for Monad\n * \n * Direct contract interaction (agent0-sdk doesn\x27t support Monad yet)\n * \n * Requirements:\n * - PRIVATE_KEY in .env (wallet with MON for gas)\n * - PINATA_JWT in .env (for IPFS upload)\n * - RPC_URL in .env (optional, defaults to public endpoint)\n * \n * Run with: npm run register\n */\n\nimport \x27dotenv/config\x27;\nimport \x7b createWalletClient, createPublicClient, http, parseAbi \x7d from \x27viem\x27;\nimport \x7b privateKeyToAccount \x7d from \x27viem/accounts\x27;\nimport \x7b defineChain \x7d from \x27viem\x27;\n\n// ========\x3d===============\x3d===============\x3d===============\x3d===================\n// Monad Chain Definition\n// ========\x3d===============\x3d===============\x3d===============\x3d===================\n\nconst monad"

def regLit1 : String :=
  " = defineChain(\x7b\n  id: "

def regLit2 : String :=
  ",\n  name: \x27"

def regLit3 : String :=
  "\x27,\n  nativeCurrency: \x7b name: \x27Monad\x27, symbol: \x27MON\x27, decimals: 18 \x7d,\n  rpcUrls: \x7b\n    default: \x7b http: [\x27"

def regLit4 : String :=
  "\x27] \x7d,\n  \x7d,\n\x7d);\n\n// ========\x3d===============\x3d===============\x3d===============\x3d===================\n// Contract Configuration\n// ========\x3d===============\x3d===============\x3d===============\x3d===================\n\nconst IDENTITY_REGISTRY = \x27"

def regLit5 : String :=
  "\x27;\n\nconst IDENTITY_REGISTRY_ABI = parseAbi([\n  \x27function register(string agentURI) external returns (uint256 agentId)\x27,\n  \x27function balanceOf(address owner) external view returns (uint256)\x27,\n  \x27event Registered(uint256 indexed agentId, string agentURI, address indexed owner)\x27,\n]);\n\n// ========\x3d===============\x3d===============\x3d===============\x3d===================\n// Agent Configuration\n// ========\x3d===============\x3d===============\x3d===============\x3d===================\n\nconst AGENT_METADATA = \x7b\n  type: \"https://eips.ethereum.org/EIPS/eip-8004#registration-v1\",\n  name: \""

def regLit6 : String :=
  "\",\n  description: \""

def regLit7 : String :=
  "\",\n  image: \""

def regLit8 : String :=
  "\",\n  services: "

def regLit9 : String :=
  ",\n  x402Support: false,\n  active: true,\n  registrations: [],\n  supportedTrust: ["

def regLit10 : String :=
  "],\n\x7d;\n\n// ========\x3d===============\x3d===============\x3d===============\x3d===================\n// IPFS Upload via Pinata\n// ========\x3d===============\x3d===============\x3d===============\x3d===================\n\nasync function uploadToIPFS(metadata: object): Promise<string> \x7b\n  const pinataJwt = process.env.PINATA_JWT;\n  if (!pinataJwt) \x7b\n    throw new Error(\x27PINATA_JWT not set in .env. Get one at https://pinata.cloud\x27);\n  \x7d\n\n  console.log(\x27\uf8ff\u00fc\u00ec\u00a7 Uploading metadata to IPFS...\x27);\n\n  const response = await fetch(\x27https://api.pinata.cloud/pinning/pinJSONToIPFS\x27, \x7b\n    method: \x27POST\x27,\n    headers: \x7b\n      \x27Content-Type\x27: \x27application/json\x27,\n      \x27Authorization\x27: \x60Bearer $\x7bpinataJwt\x7d\x60,\n    \x7d,\n    body: JSON.stringify(\x7b\n      pinataContent: metadata,\n      pinataMetadata: \x7b\n        name: \x60agent-metadata-$\x7bDate.now()\x7d.json\x60,\n      \x7d,\n    \x7d),\n  \x7d);\n\n  if (!response.ok) \x7b\n    const error = await response.text();\n    throw new Error(\x60Pinata upload failed: $\x7berror\x7d\x60);\n  \x7d\n\n  const result = await response.json() as \x7b IpfsHash: string \x7d;\n  const ipfsUri = \x60ipfs://$\x7bresult.IpfsHash\x7d\x60;\n  \n  console.log(\x60   IPFS hash: $\x7bresult.IpfsHash\x7d\x60);\n  console.log(\x60   Gateway: https://gateway.pinata.cloud/ipfs/$\x7bresult.IpfsHash\x7d\x60);\n  \n  return ipfsUri;\n\x7d\n\n// ========\x3d===============\x3d===============\x3d===============\x3d===================\n// Main Registration Flow\n// ========\x3d===============\x3d===============\x3d===============\x3d===================\n\nasync function main() \x7b\n  // Validate environment\n  const privateKey = process.env.PRIVATE_KEY;\n  if (!privateKey) \x7b\n    throw new Error(\x27PRIVATE_KEY not set in .env\x27);\n  \x7d\n\n  const rpcUrl = process.env.RPC_URL || \x27"

def regLit11 : String :=
  "\x27;\n\n  // Initialize clients\n  console.log(\x27\uf8ff\u00fc\u00ee\u00df Initializing Monad client...\x27);\n  const account = privateKeyToAccount(privateKey as \x600x$\x7bstring\x7d\x60);\n  \n  const walletClient = createWalletClient(\x7b\n    account,\n    chain: monad"

def regLit12 : String :=
  ",\n    transport: http(rpcUrl),\n  \x7d);\n\n  const publicClient = createPublicClient(\x7b\n    chain: monad"

def regLit13 : String :=
  ",\n    transport: http(rpcUrl),\n  \x7d);\n\n  console.log(\x60   Wallet: $\x7baccount.address\x7d\x60);\n\n  // Check balance\n  const balance = await publicClient.getBalance(\x7b address: account.address \x7d);\n  console.log(\x60   Balance: $\x7bNumber(balance) / 1e18\x7d MON\x60);\n  \n  if (balance === 0n) \x7b\n    throw new Error(\x27Wallet has no MON. Fund it first: https://faucet.monad.xyz/\x27);\n  \x7d\n\n  // Check if wallet already has agents registered\n  const agentCount = await publicClient.readContract(\x7b\n    address: IDENTITY_REGISTRY,\n    abi: IDENTITY_REGISTRY_ABI,\n    functionName: \x27balanceOf\x27,\n    args: [account.address],\n  \x7d);\n\n  if (agentCount > 0n) \x7b\n    console.log(\x27\x27);\n    console.log(\x60\u201a\u00f6\u2020\u00d4\u220f\u00e8  This wallet already owns $\x7bagentCount\x7d agent(s).\x60);\n    console.log(\x27   Running register again will create a NEW agent.\x27);\n    console.log(\x27   Press Ctrl+C to cancel, or wait 5 seconds to continue...\x27);\n    await new Promise(resolve => setTimeout(resolve, 5000));\n  \x7d\n\n  console.log(\x27\x27);\n  console.log(\x27\uf8ff\u00fc\u00ec\u00f9 Agent metadata:\x27);\n  console.log(\x60   Name: $\x7bAGENT_METADATA.name\x7d\x60);\n  console.log(\x60   Description: $\x7bAGENT_METADATA.description\x7d\x60);\n  console.log(\x27\x27);\n\n  // Upload to IPFS\n  const agentURI = await uploadToIPFS(AGENT_METADATA);\n  console.log(\x27\x27);\n\n  // Register on-chain\n  console.log(\x27\u201a\u00f5\u00ec\u00d4\u220f\u00e8  Registering agent on "

def regLit14 : String :=
  txGap0 ++ txFrag1 ++ txGap1 ++ txFrag2 ++ txGap2 ++ txFrag3 ++ txGap3 ++
  txFrag4 ++ txGap4 ++ txFrag5 ++ txGap5 ++ txFrag6 ++ txGap6 ++ txFrag7 ++ txGap7

def regLit15 : String :=
  "/$\x7bagentId\x7d\x60);\n  console.log(\x27\x27);\n  console.log(\x27\uf8ff\u00fc\u00ec\u00e3 Next steps:\x27);\n  console.log(\x27   1. Update endpoint URLs in this file with your production domain\x27);\n  console.log(\x27   2. Run \x60npm run start:a2a\x60 to start your A2A server\x27);\n  console.log(\x27   3. Deploy your agent to a public URL\x27);\n\x7d\n\nmain().catch((error) => \x7b\n  console.error(\x27\u201a\u00f9\u00e5 Registration failed:\x27, error.message || error);\n  process.exit(1);\n\x7d);\n"

def svcA2ALit0 : String :=
  "    \x7b\n      name: \"A2A\",\n      endpoint: \"https://"

def svcA2ALit1 : String :=
  ".example.com/.well-known/agent-card.json\",\n      version: \"0.3.0\",\n    \x7d"

def svcMCPLit0 : String :=
  "    \x7b\n      name: \"MCP\", \n      endpoint: \"https://"

def svcMCPLit1 : String :=
  ".example.com/mcp\",\n      version: \"2025-06-18\",\n    \x7d"

def rmA2ASecLit0 : String :=
  "\n### 5. Start the A2A server\n\n\x60\x60\x60bash\nnpm run start:a2a\n\x60\x60\x60\n\nTest locally: http://localhost:3000/.well-known/agent-card.json\n"

def rmMCPSecLit0 : String :=
  "\n### "

def rmMCPSecLit1 : String :=
  ". Start the MCP server\n\n\x60\x60\x60bash\nnpm run start:mcp\n\x60\x60\x60\n"

def treeA2AEntry : String :=
  "\n\u201a\u00ee\u00c7   \u201a\u00ee\u00ee\u201a\u00ee\u00c4\u201a\u00ee\u00c4 a2a-server.ts   # A2A server"

def treeMCPEntry : String :=
  "\n\u201a\u00ee\u00c7   \u201a\u00ee\u00ee\u201a\u00ee\u00c4\u201a\u00ee\u00c4 mcp-server.ts   # MCP server"

def rmLit0 : String :=
  "# "

def rmLit1 : String :=
  "\n\n"

def rmLit2 : String :=
  "\n\n## Quick Start\n\n### 1. Install dependencies\n\n\x60\x60\x60bash\nnpm install\n\x60\x60\x60\n\n### 2. Configure environment\n\nEdit \x60.env\x60 and add your API keys:\n\n\x60\x60\x60env\n# Already set if wallet was auto-generated\nPRIVATE_KEY=your_private_key\n\n# Get from https://pinata.cloud\nPINATA_JWT=your_pinata_jwt\n\n# Get from https://platform.openai.com\nOPENAI_API_KEY=your_openai_key\n\x60\x60\x60\n\n### 3. Fund your wallet\n\nYour agent wallet: \x60"

def rmLit3 : String :=
  "\x60\n\nGet testnet MON from: https://faucet.monad.xyz/\n\n### 4. Register on-chain\n\n\x60\x60\x60bash\nnpm run register\n\x60\x60\x60\n\nThis will:\n- Upload your agent metadata to IPFS via Pinata\n- Register your agent on "

def rmLit4 : String :=
  "\n- Output your agent ID and 8004scan link\n"

def rmLit5 : String :=
  "\n\n## Monad Contracts\n\n- **Identity Registry**: \x60"

def rmLit6 : String :=
  "\x60\n- **Reputation Registry**: \x60"

def rmLit7 : String :=
  "\x60\n\n## Project Structure\n\n\x60\x60\x60\n"

def rmLit8 : String :=
  "/\n\u201a\u00ee\u00fa\u201a\u00ee\u00c4\u201a\u00ee\u00c4 src/\n\u201a\u00ee\u00c7   \u201a\u00ee\u00fa\u201a\u00ee\u00c4\u201a\u00ee\u00c4 register.ts      # Registration script (direct contract calls)\n\u201a\u00ee\u00c7   \u201a\u00ee\u00fa\u201a\u00ee\u00c4\u201a\u00ee\u00c4 agent.ts         # LLM logic"

def rmLit9 : String :=
  "\n\u201a\u00ee\u00fa\u201a\u00ee\u00c4\u201a\u00ee\u00c4 .env                 # Environment variables (keep secret!)\n\u201a\u00ee\u00ee\u201a\u00ee\u00c4\u201a\u00ee\u00c4 package.json\n\x60\x60\x60\n\n## Resources\n\n- [ERC-8004 Standard](https://eips.ethereum.org/EIPS/eip-8004)\n- [8004scan Explorer](https://www.8004scan.io/)\n- [Monad Docs](https://docs.monad.xyz/)\n"
/-- Manifest prefix up to the `name` value (`JSON.stringify` rendering of
`monad.ts` lines 64-76). -/
def pkgLit0 : String :=
  "\x7b\n  \x22name\x22: "

/-- Manifest fragment between the `name` and `description` values. -/
def pkgLit1 : String :=
  ",\n  \x22version\x22: \x221.0.0\x22,\n  \x22description\x22: "

/-- Manifest fragment between the `description` value and the `scripts` object. -/
def pkgLit2 : String :=
  ",\n  \x22type\x22: \x22module\x22,\n  \x22scripts\x22: "

/-- Manifest fragment between the `scripts` and `dependencies` objects. -/
def pkgLit3 : String :=
  ",\n  \x22dependencies\x22: "

/-- Manifest fragment between the `dependencies` and `devDependencies` objects. -/
def pkgLit4 : String :=
  ",\n  \x22devDependencies\x22: "

/-- Manifest suffix. -/
def pkgLit5 : String :=
  "\n\x7d"

/-- `generateMonadPackageJson` (`monad.ts` lines 33-77):
`JSON.stringify({name, version, description, type, scripts, dependencies,
devDependencies}, null, 2)`. -/
def generateMonadPackageJson (answers : WizardAnswers) : String :=
  pkgLit0 ++ jsonQuote (agentSlug answers) ++
  pkgLit1 ++ jsonQuote answers.agentDescription ++
  pkgLit2 ++ jsonObjBlock (monadScripts answers) ++
  pkgLit3 ++ jsonObjBlock (monadDependencies answers) ++
  pkgLit4 ++ jsonObjBlock (monadDevDependencies answers) ++
  pkgLit5

/-- `generateMonadEnv` (`monad.ts` lines 79-94). -/
def generateMonadEnv (answers : WizardAnswers) (chain : ChainConfig) : String :=
  envLit0 ++ privateKeyValue answers ++ envLit1 ++ chain.name ++ envLit2 ++
  chain.rpcUrl ++ envLit3

/-- The A2A entry pushed onto `services` (`monad.ts` lines 105-109). -/
def svcA2AEntry (answers : WizardAnswers) : String :=
  svcA2ALit0 ++ agentSlug answers ++ svcA2ALit1

/-- The MCP entry pushed onto `services` (`monad.ts` lines 112-116). -/
def svcMCPEntry (answers : WizardAnswers) : String :=
  svcMCPLit0 ++ agentSlug answers ++ svcMCPLit1

/-- The `services` array built by `generateMonadRegisterScript`
(`monad.ts` lines 103-117): the A2A entry when the `a2a` feature is enabled,
then the MCP entry when the `mcp` feature is enabled. -/
def monadServices (answers : WizardAnswers) : List String :=
  (if hasFeature answers ("a2a") then [svcA2AEntry answers] else []) ++
  (if hasFeature answers ("mcp") then [svcMCPEntry answers] else [])

/-- `servicesCode` (`monad.ts` lines 119-121). -/
def servicesCode (answers : WizardAnswers) : String :=
  if (monadServices answers).length > 0 then
    "[\n" ++ joinSep (",\n") (monadServices answers) ++ "\n  ]"
  else "[]"

/-- `trustModels` interpolation value (`monad.ts` line 124):
`answers.trustModels.map(t => .."${t}"..).join(", ")`. -/
def trustModelsCode (answers : WizardAnswers) : String :=
  joinSep (", ") (answers.trustModels.map (fun t => "\x22" ++ t ++ "\x22"))

/-- Registration-script text up to the metadata `name` value
(`monad.ts` lines 126-175). -/
def regHead (answers : WizardAnswers) (chain : ChainConfig) : String :=
  regLit0 ++ monadChainSuffix chain ++ regLit1 ++ toString chain.chainId ++
  regLit2 ++ chain.name ++ regLit3 ++ chain.rpcUrl ++ regLit4 ++
  (getMonadContracts answers.chain).identityRegistry ++ regLit5

/-- Registration-script text after the metadata `description` value
(`monad.ts` lines 176-356). -/
def regTail (answers : WizardAnswers) (chain : ChainConfig) : String :=
  regLit7 ++ answers.agentImage ++ regLit8 ++ servicesCode answers ++
  regLit9 ++ trustModelsCode answers ++ regLit10 ++ chain.rpcUrl ++
  regLit11 ++ monadChainSuffix chain ++ regLit12 ++ monadChainSuffix chain ++
  regLit13 ++ chain.name ++ regLit14 ++ chain.scanPath ++ regLit15

/-- `generateMonadRegisterScript` (`monad.ts` lines 96-357). -/
def generateMonadRegisterScript (answers : WizardAnswers) (chain : ChainConfig) : String :=
  regHead answers chain ++ jsEscapeQuotes answers.agentName ++ regLit6 ++
  jsEscapeQuotes answers.agentDescription ++ regTail answers chain

/-- The `a2a` README section (`monad.ts` lines 407-415). -/
def rmA2ASection : String :=
  rmA2ASecLit0

/-- The `mcp` README section (`monad.ts` lines 415-421); its number is `6`
when the `a2a` section is also present, else `5`. -/
def rmMCPSection (a2a : Bool) : String :=
  rmMCPSecLit0 ++ (if a2a then "6" else "5") ++ rmMCPSecLit1

/-- `generateMonadReadme` (`monad.ts` lines 359-445). -/
def generateMonadReadme (answers : WizardAnswers) (chain : ChainConfig) : String :=
  rmLit0 ++ answers.agentName ++ rmLit1 ++ answers.agentDescription ++
  rmLit2 ++ answers.agentWallet ++ rmLit3 ++ chain.name ++ rmLit4 ++
  condStr (hasFeature answers ("a2a")) rmA2ASection ++
  condStr (hasFeature answers ("mcp")) (rmMCPSection (hasFeature answers ("a2a"))) ++
  rmLit5 ++ (getMonadContracts answers.chain).identityRegistry ++
  rmLit6 ++ (getMonadContracts answers.chain).reputationRegistry ++
  rmLit7 ++ agentSlug answers ++ rmLit8 ++
  condStr (hasFeature answers ("a2a")) treeA2AEntry ++
  condStr (hasFeature answers ("mcp")) treeMCPEntry ++
  rmLit9

/-- Contiguous-subsequence test on character lists. -/
def containsSeq (n : List Char) : List Char → Bool
  | [] => n.isEmpty
  | c :: t => n.isPrefixOf (c :: t) || containsSeq n t

/-- Substring test (as a Bool, so concrete instances can be decided). -/
def strContains (t sub : String) : Bool :=
  containsSeq sub.data t.data

/-- No-newline predicate on a string. -/
abbrev noNl (s : String) : Prop :=
  ∀ c ∈ s.data, c ≠ '\n'

/-- Split a character list at newline characters (the line structure of a
generated file). -/
def splitNl : List Char → List (List Char)
  | [] => [[]]
  | c :: cs =>
    if c = '\n' then [] :: splitNl cs
    else
      match splitNl cs with
      | [] => [[c]]
      | l :: ls => (c :: l) :: ls

/-- The lines of a generated text. -/
def envLinesOf (s : String) : List (List Char) :=
  splitNl s.data

/-- Ordered occurrence of a list of fragments inside a character list: each
fragment occurs, and each occurs after the end of the previous one. -/
def occursInOrderL : List (List Char) → List Char → Prop
  | [], _ => True
  | s :: rest, t => ∃ pre post, t = pre ++ s ++ post ∧ occursInOrderL rest post

/-- The spec's description of the manifest name: `agentName` "lower-cased with
every maximal run of whitespace replaced by a single hyphen".  Written from the
spec's words, independently of `squashWs`: on meeting a whitespace character
the remaining run is skipped and a single `-` is emitted. -/
def specLowerHyphen : List Char → List Char
  | [] => []
  | c :: cs =>
    if isJsSpace c then '-' :: specLowerHyphen (cs.dropWhile (fun d => isJsSpace d))
    else jsLowerChar c :: specLowerHyphen cs
termination_by l => l.length
decreasing_by
  · exact Nat.lt_succ_of_le (List.Sublist.length_le (List.dropWhile_sublist _))
  · exact Nat.lt_succ_of_le (Nat.le_refl _)

/-- Test fixture: a testnet chain configuration. -/
def demoChain : ChainConfig :=
  ⟨"Monad Testnet", 10143, "https://testnet-rpc.monad.xyz", "monad-testnet"⟩

/-- Test fixture: the spec's end-to-end scenario answers, `features = ["a2a"]`. -/
def demoAnswersA2A : WizardAnswers :=
  ⟨"monad-demo", "Demo Agent", "Demo agent for Monad testnet",
   "https://example.com/img.png", ["a2a"], false, "monad-testnet",
   ["reputation"], "0x0000000000000000000000000000000000000001", none⟩

/-- Test fixture: the same answers with `features = []`. -/
def demoAnswersNone : WizardAnswers :=
  ⟨"monad-demo", "Demo Agent", "Demo agent for Monad testnet",
   "https://example.com/img.png", [], false, "monad-testnet",
   ["reputation"], "0x0000000000000000000000000000000000000001", none⟩

/-- Test fixture: the same answers with `features = ["a2a", "mcp"]`. -/
def demoAnswersBoth : WizardAnswers :=
  ⟨"monad-demo", "Demo Agent", "Demo agent for Monad testnet",
   "https://example.com/img.png", ["a2a", "mcp"], false, "monad-testnet",
   ["reputation"], "0x0000000000000000000000000000000000000001", none⟩

/-- Test fixture: the same answers with `features = ["mcp"]`. -/
def demoAnswersMCP : WizardAnswers :=
  ⟨"monad-demo", "Demo Agent", "Demo agent for Monad testnet",
   "https://example.com/img.png", ["mcp"], false, "monad-testnet",
   ["reputation"], "0x0000000000000000000000000000000000000001", none⟩

/-- Test fixture: a generated private key containing a newline that forges an
extra `RPC_URL=` line in the environment template. -/
def newlineKeyAnswers : WizardAnswers :=
  ⟨"monad-demo", "Demo Agent", "Demo agent for Monad testnet",
   "https://example.com/img.png", ["a2a"], false, "monad-testnet",
   ["reputation"], "0x0000000000000000000000000000000000000001",
   some "x\nRPC_URL=evil"⟩

/-- Test fixture: a present-but-empty generated private key. -/
def emptyKeyAnswers : WizardAnswers :=
  ⟨"monad-demo", "Demo Agent", "Demo agent for Monad testnet",
   "https://example.com/img.png", ["a2a"], false, "monad-testnet",
   ["reputation"], "0x0000000000000000000000000000000000000001",
   some ""⟩

/-! ## Helper lemmas -/

set_option maxRecDepth 100000

theorem data_append (s t : String) : (s ++ t).data = s.data ++ t.data := by
  cases s; cases t; rfl

theorem jsEscQ_eq_flatMap (l : List Char) :
    jsEscQ l = l.flatMap (fun c => if c = '"' then ['\\', '"'] else [c]) := by
  induction l with
  | nil => rfl
  | cons c cs ih => by_cases h : c = '"' <;> simp [jsEscQ, h, ih]

/-! ## Claim theorems -/

/-- C1: `getMonadContracts` returns the mainnet address pair exactly for the
chain string `"monad-mainnet"`, the testnet pair for every other string, and
its value is always one of the two fixed pairs of `MONAD_CONTRACTS`. -/
theorem getMonadContracts_tier_selection :
    getMonadContracts ("monad-mainnet") = MONAD_CONTRACTS.mainnet ∧
    (∀ chain : String, chain ≠ "monad-mainnet" →
      getMonadContracts chain = MONAD_CONTRACTS.testnet) ∧
    (∀ chain : String, getMonadContracts chain = MONAD_CONTRACTS.mainnet ∨
      getMonadContracts chain = MONAD_CONTRACTS.testnet) := by
  refine ⟨rfl, ?_, ?_⟩
  · intro chain h
    simp [getMonadContracts, h]
  · intro chain
    by_cases h : chain = "monad-mainnet" <;> simp [getMonadContracts, h]

/-- Witness for C1: concrete instances of the testnet branch, obtained from
`getMonadContracts_tier_selection` at `"monad-testnet"` and at an
unrecognized chain string. -/
theorem getMonadContracts_tier_selection_witness :
    getMonadContracts ("monad-testnet") = MONAD_CONTRACTS.testnet ∧
    getMonadContracts ("base-sepolia") = MONAD_CONTRACTS.testnet :=
  ⟨getMonadContracts_tier_selection.2.1 ("monad-testnet") (by decide),
   getMonadContracts_tier_selection.2.1 ("base-sepolia") (by decide)⟩

/-- C2: the manifest maps consist of the base entries (unchanged, in order)
followed exactly by the `a2a` additions (one script, `express` and `uuid`
dependencies, their two type-declaration devDependencies) when `a2a` is
enabled and the `mcp` additions (one script, the protocol-SDK dependency)
when `mcp` is enabled; in every case the key sets have no duplicates, and the
serialized manifest is exactly these maps. -/
theorem packageJson_feature_additions (answers : WizardAnswers) :
    monadScripts answers =
      [("build", "tsc"), ("register", "tsx src/register.ts")] ++
      (if hasFeature answers ("a2a") then [("start:a2a", "tsx src/a2a-server.ts")] else []) ++
      (if hasFeature answers ("mcp") then [("start:mcp", "tsx src/mcp-server.ts")] else []) ∧
    monadDependencies answers =
      [("viem", "^2.21.0"), ("dotenv", "^16.3.1"), ("openai", "^4.68.0")] ++
      (if hasFeature answers ("a2a") then [("express", "^4.18.2"), ("uuid", "^9.0.0")] else []) ++
      (if hasFeature answers ("mcp") then [("@modelcontextprotocol/sdk", "^1.0.0")] else []) ∧
    monadDevDependencies answers =
      [("@types/node", "^20.10.0"), ("tsx", "^4.7.0"), ("typescript", "^5.3.0")] ++
      (if hasFeature answers ("a2a") then [("@types/express", "^4.17.21"), ("@types/uuid", "^9.0.7")] else []) ∧
    ((monadScripts answers).map Prod.fst).Nodup ∧
    ((monadDependencies answers).map Prod.fst).Nodup ∧
    ((monadDevDependencies answers).map Prod.fst).Nodup ∧
    generateMonadPackageJson answers =
      pkgLit0 ++ jsonQuote (agentSlug answers) ++ pkgLit1 ++
      jsonQuote answers.agentDescription ++ pkgLit2 ++
      jsonObjBlock (monadScripts answers) ++ pkgLit3 ++
      jsonObjBlock (monadDependencies answers) ++ pkgLit4 ++
      jsonObjBlock (monadDevDependencies answers) ++ pkgLit5 := by
  cases ha : hasFeature answers ("a2a") <;> cases hm : hasFeature answers ("mcp") <;>
    refine ⟨?_, ?_, ?_, ?_, ?_, ?_, rfl⟩ <;>
    simp [monadScripts, monadDependencies, monadDevDependencies, ha, hm] <;>
    decide

/-- C3: the registration script embeds the quote-escaped `agentName` and
`agentDescription` (the characterization of `jsEscapeQuotes`: every `"` is
replaced by `\"`), and the `services` array has one entry per enabled feature
among `a2a` and `mcp`. -/
theorem registerScript_escapes_and_services (answers : WizardAnswers) (chain : ChainConfig) :
    generateMonadRegisterScript answers chain =
      regHead answers chain ++ jsEscapeQuotes answers.agentName ++ regLit6 ++
      jsEscapeQuotes answers.agentDescription ++ regTail answers chain ∧
    (∀ s : String, (jsEscapeQuotes s).data =
      s.data.flatMap (fun c => if c = '"' then ['\\', '"'] else [c])) ∧
    (monadServices answers).length =
      (if hasFeature answers ("a2a") then 1 else 0) +
      (if hasFeature answers ("mcp") then 1 else 0) := by
  refine ⟨rfl, ?_, ?_⟩
  · intro s
    exact jsEscQ_eq_flatMap s.data
  · cases ha : hasFeature answers ("a2a") <;> cases hm : hasFeature answers ("mcp") <;>
      simp [monadServices, ha, hm]

/-- C8: every generator is a pure function of its arguments — two calls on
equal inputs return equal (byte-identical) strings. -/
theorem generators_deterministic (a₁ a₂ : WizardAnswers) (c₁ c₂ : ChainConfig)
    (ha : a₁ = a₂) (hc : c₁ = c₂) :
    generateMonadPackageJson a₁ = generateMonadPackageJson a₂ ∧
    generateMonadEnv a₁ c₁ = generateMonadEnv a₂ c₂ ∧
    generateMonadRegisterScript a₁ c₁ = generateMonadRegisterScript a₂ c₂ ∧
    generateMonadReadme a₁ c₁ = generateMonadReadme a₂ c₂ := by
  subst ha
  subst hc
  exact ⟨rfl, rfl, rfl, rfl⟩

/-- Witness for C8: the purity theorem applied at the sample answers and
chain. -/
theorem generators_deterministic_witness :
    generateMonadPackageJson demoAnswersA2A = generateMonadPackageJson demoAnswersA2A ∧
    generateMonadEnv demoAnswersA2A demoChain = generateMonadEnv demoAnswersA2A demoChain ∧
    generateMonadRegisterScript demoAnswersA2A demoChain =
      generateMonadRegisterScript demoAnswersA2A demoChain ∧
    generateMonadReadme demoAnswersA2A demoChain = generateMonadReadme demoAnswersA2A demoChain :=
  generators_deterministic demoAnswersA2A demoAnswersA2A demoChain demoChain rfl rfl

/-- C9: a present-but-empty `generatedPrivateKey` is falsy for the `||`
fallback, so the environment template is the same as with the field absent:
the placeholder literal is emitted. -/
theorem env_empty_key_placeholder (answers : WizardAnswers) (chain : ChainConfig)
    (h : answers.generatedPrivateKey = some "") :
    privateKeyValue answers = "your_private_key_here" ∧
    generateMonadEnv answers chain =
      generateMonadEnv
        ⟨answers.projectDir, answers.agentName, answers.agentDescription,
         answers.agentImage, answers.features, answers.a2aStreaming, answers.chain,
         answers.trustModels, answers.agentWallet, none⟩ chain := by
  have h1 : privateKeyValue answers = "your_private_key_here" := by
    simp only [privateKeyValue, h]
    rfl
  have h2 : privateKeyValue
      ⟨answers.projectDir, answers.agentName, answers.agentDescription,
       answers.agentImage, answers.features, answers.a2aStreaming, answers.chain,
       answers.trustModels, answers.agentWallet, none⟩ = "your_private_key_here" := rfl
  refine ⟨h1, ?_⟩
  simp [generateMonadEnv, h1, h2]

/-- Witness for C9: the empty-key fixture, via `env_empty_key_placeholder`. -/
theorem env_empty_key_placeholder_witness :
    privateKeyValue emptyKeyAnswers = "your_private_key_here" :=
  (env_empty_key_placeholder emptyKeyAnswers demoChain rfl).1

/-! ## Lemmas for the manifest-name slug -/

theorem char_toNat_ofNat (n : Nat) (h : n < 55296) : (Char.ofNat n).toNat = n := by
  have hv : n.isValidChar := Or.inl h
  simp [Char.ofNat, hv, Char.toNat, Char.ofNatAux, UInt32.toNat]

theorem isJsSpace_jsLowerChar (c : Char) : isJsSpace (jsLowerChar c) = isJsSpace c := by
  unfold jsLowerChar
  by_cases h : 65 ≤ c.toNat ∧ c.toNat ≤ 90
  · rw [if_pos h]
    have h1 : (Char.ofNat (c.toNat + 32)).toNat = c.toNat + 32 :=
      char_toNat_ofNat _ (by omega)
    simp only [isJsSpace, h1, decide_eq_decide]
    omega
  · rw [if_neg h]

theorem isAsciiUpper_jsLowerChar (c : Char) : isAsciiUpper (jsLowerChar c) = false := by
  unfold jsLowerChar
  by_cases h : 65 ≤ c.toNat ∧ c.toNat ≤ 90
  · rw [if_pos h]
    have h1 : (Char.ofNat (c.toNat + 32)).toNat = c.toNat + 32 :=
      char_toNat_ofNat _ (by omega)
    simp only [isAsciiUpper, h1, decide_eq_false_iff_not]
    omega
  · rw [if_neg h]
    simp only [isAsciiUpper, decide_eq_false_iff_not]
    omega

theorem squashWs_ws_head : ∀ (cs : List Char) (w : Char), isJsSpace w = true →
    squashWs (w :: cs) = '-' :: squashWs (cs.dropWhile (fun d => isJsSpace d)) := by
  intro cs
  induction cs with
  | nil =>
    intro w hw
    simp [squashWs, hw]
  | cons d cs ih =>
    intro w hw
    by_cases hd : isJsSpace d
    · rw [show squashWs (w :: d :: cs) = squashWs (d :: cs) from by simp [squashWs, hw, hd]]
      rw [ih d hd]
      simp [List.dropWhile_cons, hd]
    · have h1 : squashWs (w :: d :: cs) = '-' :: squashWs (d :: cs) := by
        simp [squashWs, hw, hd]
      rw [h1]
      simp [List.dropWhile_cons, hd]

theorem squashWs_cons_not_ws (c : Char) (hc : isJsSpace c = false) (cs : List Char) :
    squashWs (c :: cs) = c :: squashWs cs := by
  cases cs with
  | nil => simp [squashWs, hc]
  | cons d cs => simp [squashWs, hc]

theorem squashWs_map_lower : ∀ l : List Char,
    squashWs (l.map jsLowerChar) = specLowerHyphen l := by
  intro l
  induction l using specLowerHyphen.induct with
  | case1 => simp [specLowerHyphen, squashWs]
  | case2 c cs hc ih =>
    have hlc : isJsSpace (jsLowerChar c) = true := by
      rw [isJsSpace_jsLowerChar, hc]
    rw [List.map_cons, squashWs_ws_head _ _ hlc]
    have hdw : (cs.map jsLowerChar).dropWhile (fun d => isJsSpace d) =
        (cs.dropWhile (fun d => isJsSpace d)).map jsLowerChar := by
      rw [List.dropWhile_map]
      rw [show ((fun d => isJsSpace d) ∘ jsLowerChar) = (fun d : Char => isJsSpace d) from
        funext (fun d => isJsSpace_jsLowerChar d)]
    rw [hdw, ih]
    rw [show specLowerHyphen (c :: cs) =
      '-' :: specLowerHyphen (cs.dropWhile (fun d => isJsSpace d)) from by
        rw [specLowerHyphen]; rw [if_pos hc]]
  | case3 c cs hc ih =>
    have hlc : isJsSpace (jsLowerChar c) = false := by
      rw [isJsSpace_jsLowerChar]
      simpa using hc
    rw [List.map_cons, squashWs_cons_not_ws _ hlc, ih]
    rw [show specLowerHyphen (c :: cs) = jsLowerChar c :: specLowerHyphen cs from by
      rw [specLowerHyphen]; rw [if_neg (by simpa using hc)]]

theorem specLowerHyphen_clean : ∀ l : List Char, ∀ c ∈ specLowerHyphen l,
    isAsciiUpper c = false ∧ isJsSpace c = false := by
  intro l
  induction l using specLowerHyphen.induct with
  | case1 =>
    intro c hc
    simp [specLowerHyphen] at hc
  | case2 c cs hc ih =>
    intro e he
    rw [show specLowerHyphen (c :: cs) =
      '-' :: specLowerHyphen (cs.dropWhile (fun d => isJsSpace d)) from by
        rw [specLowerHyphen]; rw [if_pos hc]] at he
    rcases List.mem_cons.mp he with h | h
    · subst h
      exact ⟨by decide, by decide⟩
    · exact ih e h
  | case3 c cs hc ih =>
    intro e he
    rw [show specLowerHyphen (c :: cs) = jsLowerChar c :: specLowerHyphen cs from by
      rw [specLowerHyphen]; rw [if_neg (by simpa using hc)]] at he
    rcases List.mem_cons.mp he with h | h
    · subst h
      refine ⟨isAsciiUpper_jsLowerChar c, ?_⟩
      rw [isJsSpace_jsLowerChar]
      simpa using hc
    · exact ih e h

/-- C5: for answers whose `agentName` mixes case and has internal whitespace,
the manifest `name` is the slug: it equals the spec's "lower-cased, every
maximal whitespace run replaced by a single hyphen" transform, and it contains
no ASCII upper-case letter and no whitespace character; the serialized
manifest embeds exactly this slug as the `name` value. -/
theorem packageName_lower_hyphen (answers : WizardAnswers)
    (hupper : ∃ c ∈ answers.agentName.data, isAsciiUpper c = true)
    (hlower : ∃ c ∈ answers.agentName.data, isAsciiLower c = true)
    (hws : ∃ pre c post, answers.agentName.data = pre ++ c :: post ∧
      isJsSpace c = true ∧ pre ≠ [] ∧ post ≠ []) :
    generateMonadPackageJson answers =
      pkgLit0 ++ jsonQuote (agentSlug answers) ++ pkgLit1 ++
      jsonQuote answers.agentDescription ++ pkgLit2 ++
      jsonObjBlock (monadScripts answers) ++ pkgLit3 ++
      jsonObjBlock (monadDependencies answers) ++ pkgLit4 ++
      jsonObjBlock (monadDevDependencies answers) ++ pkgLit5 ∧
    (agentSlug answers).data = specLowerHyphen answers.agentName.data ∧
    (∀ c ∈ (agentSlug answers).data, isAsciiUpper c = false) ∧
    (∀ c ∈ (agentSlug answers).data, isJsSpace c = false) := by
  have hdata : (agentSlug answers).data = specLowerHyphen answers.agentName.data := by
    show (jsSlug answers.agentName).data = _
    unfold jsSlug
    show squashWs (answers.agentName.data.map jsLowerChar) = _
    exact squashWs_map_lower _
  refine ⟨rfl, hdata, ?_, ?_⟩
  · intro c hc
    rw [hdata] at hc
    exact (specLowerHyphen_clean _ c hc).1
  · intro c hc
    rw [hdata] at hc
    exact (specLowerHyphen_clean _ c hc).2

/-- Witness for C5: the sample agent name `"Demo Agent"` (mixed case, one
internal space) through `packageName_lower_hyphen`. -/
theorem packageName_lower_hyphen_witness :
    (agentSlug demoAnswersA2A).data = specLowerHyphen demoAnswersA2A.agentName.data :=
  (packageName_lower_hyphen demoAnswersA2A
    ⟨'D', by decide, by decide⟩
    ⟨'e', by decide, by decide⟩
    ⟨['D', 'e', 'm', 'o'], ' ', ['A', 'g', 'e', 'n', 't'],
      by decide, by decide, by decide, by decide⟩).2.1

/-! ## Lemmas for verbatim interpolation -/

theorem mem_joinSep_quoted (t : String) : ∀ l : List String, t ∈ l →
    ∃ a b : String,
      joinSep (", ") (l.map (fun x => "\x22" ++ x ++ "\x22")) = a ++ (t ++ b) := by
  intro l
  induction l with
  | nil =>
    intro h
    exact absurd h (List.not_mem_nil t)
  | cons x rest ih =>
    intro h
    cases rest with
    | nil =>
      have hx : t = x := by simpa using h
      subst hx
      refine ⟨"\x22", "\x22", ?_⟩
      show "\x22" ++ t ++ "\x22" = _
      simp [String.append_assoc]
    | cons y rs =>
      rcases List.mem_cons.mp h with hx | hmem
      · subst hx
        refine ⟨"\x22", "\x22" ++ ", " ++ joinSep (", ") ((y :: rs).map (fun x => "\x22" ++ x ++ "\x22")), ?_⟩
        show "\x22" ++ t ++ "\x22" ++ ", " ++ _ = _
        simp [String.append_assoc]
      · rcases ih hmem with ⟨a, b, hab⟩
        refine ⟨"\x22" ++ x ++ "\x22" ++ ", " ++ a, b, ?_⟩
        show "\x22" ++ x ++ "\x22" ++ ", " ++ joinSep (", ") ((y :: rs).map (fun x => "\x22" ++ x ++ "\x22")) = _
        rw [hab]
        simp [String.append_assoc]

/-- C10: `agentImage` and each `trustModels` element are interpolated into the
registration script verbatim (no quote escaping): the script decomposes with
the raw `agentImage` between two raw double quotes, each trust model occurs
verbatim, and the trust-model list is exactly the unescaped
`"${t}"`-join. -/
theorem registerScript_verbatim_fields (answers : WizardAnswers) (chain : ChainConfig) :
    generateMonadRegisterScript answers chain =
      (regHead answers chain ++ jsEscapeQuotes answers.agentName ++ regLit6 ++
       jsEscapeQuotes answers.agentDescription ++ regLit7) ++ answers.agentImage ++
      (regLit8 ++ servicesCode answers ++ regLit9) ++ trustModelsCode answers ++
      (regLit10 ++ chain.rpcUrl ++ regLit11 ++ monadChainSuffix chain ++ regLit12 ++
       monadChainSuffix chain ++ regLit13 ++ chain.name ++ regLit14 ++ chain.scanPath ++
       regLit15) ∧
    trustModelsCode answers =
      joinSep (", ") (answers.trustModels.map (fun t => "\x22" ++ t ++ "\x22")) ∧
    (∀ t ∈ answers.trustModels, ∃ a b : String,
      generateMonadRegisterScript answers chain = a ++ (t ++ b)) ∧
    (∃ a b : List Char, (generateMonadRegisterScript answers chain).data =
      a ++ (('"' :: answers.agentImage.data) ++ ('"' :: b))) := by
  refine ⟨?_, rfl, ?_, ?_⟩
  · simp [generateMonadRegisterScript, regTail, String.append_assoc]
  · intro t ht
    rcases mem_joinSep_quoted t answers.trustModels ht with ⟨a, b, hab⟩
    refine ⟨regHead answers chain ++ jsEscapeQuotes answers.agentName ++ regLit6 ++
      jsEscapeQuotes answers.agentDescription ++ regLit7 ++ answers.agentImage ++
      regLit8 ++ servicesCode answers ++ regLit9 ++ a,
      b ++ (regLit10 ++ chain.rpcUrl ++ regLit11 ++ monadChainSuffix chain ++ regLit12 ++
        monadChainSuffix chain ++ regLit13 ++ chain.name ++ regLit14 ++ chain.scanPath ++
        regLit15), ?_⟩
    have htc : trustModelsCode answers = a ++ (t ++ b) := hab
    simp [generateMonadRegisterScript, regTail, htc, String.append_assoc]
  · have h7 : regLit7.data = ("\x22,\n  image: ").data ++ ['"'] := by decide
    have h8 : regLit8.data = '"' :: (",\n  services: ").data := by decide
    refine ⟨(regHead answers chain ++ jsEscapeQuotes answers.agentName ++ regLit6 ++
      jsEscapeQuotes answers.agentDescription).data ++ ("\x22,\n  image: ").data,
      (",\n  services: ").data ++
      (servicesCode answers ++ regLit9 ++ trustModelsCode answers ++ regLit10 ++
       chain.rpcUrl ++ regLit11 ++ monadChainSuffix chain ++ regLit12 ++
       monadChainSuffix chain ++ regLit13 ++ chain.name ++ regLit14 ++ chain.scanPath ++
       regLit15).data, ?_⟩
    simp [generateMonadRegisterScript, regTail, data_append, h7, h8, List.append_assoc]

/-! ## Lemmas for ordered fragment occurrence -/

theorem occursInOrderL_append_left (l : List (List Char)) (p t : List Char)
    (h : occursInOrderL l t) : occursInOrderL l (p ++ t) := by
  cases l with
  | nil => trivial
  | cons s rest =>
    rcases h with ⟨pre, post, ht, hrest⟩
    exact ⟨p ++ pre, post, by rw [ht]; simp [List.append_assoc], hrest⟩

theorem occursInOrderL_append_right : ∀ (l : List (List Char)) (t q : List Char),
    occursInOrderL l t → occursInOrderL l (t ++ q) := by
  intro l
  induction l with
  | nil =>
    intro t q h
    trivial
  | cons s rest ih =>
    intro t q h
    rcases h with ⟨pre, post, ht, hrest⟩
    exact ⟨pre, post ++ q, by rw [ht]; simp [List.append_assoc], ih post q hrest⟩

/-- C6: the registration script contains, in source order, gas estimation for
the `register` call, transaction submission with the estimated gas times 120
divided by 100 (the 20% buffer), waiting for the receipt, the fatal treatment
of a reverted receipt, the `'unknown'` sentinel default for the agent
identifier, the lookup of the mint (Transfer) event by its topic-0 signature,
and the extraction of the identifier from `topics[3]`. -/
theorem registerScript_tx_flow_order (answers : WizardAnswers) (chain : ChainConfig) :
    occursInOrderL [txFrag1.data, txFrag2.data, txFrag3.data, txFrag4.data,
      txFrag5.data, txFrag6.data, txFrag7.data]
      (generateMonadRegisterScript answers chain).data := by
  have base : occursInOrderL [txFrag1.data, txFrag2.data, txFrag3.data, txFrag4.data,
      txFrag5.data, txFrag6.data, txFrag7.data] regLit14.data := by
    refine ⟨txGap0.data, (txGap1 ++ txFrag2 ++ txGap2 ++ txFrag3 ++ txGap3 ++ txFrag4 ++
      txGap4 ++ txFrag5 ++ txGap5 ++ txFrag6 ++ txGap6 ++ txFrag7 ++ txGap7).data,
      by simp [regLit14, data_append, List.append_assoc], ?_⟩
    refine ⟨txGap1.data, (txGap2 ++ txFrag3 ++ txGap3 ++ txFrag4 ++ txGap4 ++ txFrag5 ++
      txGap5 ++ txFrag6 ++ txGap6 ++ txFrag7 ++ txGap7).data,
      by simp [data_append, List.append_assoc], ?_⟩
    refine ⟨txGap2.data, (txGap3 ++ txFrag4 ++ txGap4 ++ txFrag5 ++ txGap5 ++ txFrag6 ++
      txGap6 ++ txFrag7 ++ txGap7).data, by simp [data_append, List.append_assoc], ?_⟩
    refine ⟨txGap3.data, (txGap4 ++ txFrag5 ++ txGap5 ++ txFrag6 ++ txGap6 ++ txFrag7 ++
      txGap7).data, by simp [data_append, List.append_assoc], ?_⟩
    refine ⟨txGap4.data, (txGap5 ++ txFrag6 ++ txGap6 ++ txFrag7 ++ txGap7).data,
      by simp [data_append, List.append_assoc], ?_⟩
    refine ⟨txGap5.data, (txGap6 ++ txFrag7 ++ txGap7).data,
      by simp [data_append, List.append_assoc], ?_⟩
    exact ⟨txGap6.data, txGap7.data, by simp [data_append, List.append_assoc], trivial⟩
  have hng : (generateMonadRegisterScript answers chain).data =
      (regHead answers chain ++ jsEscapeQuotes answers.agentName ++ regLit6 ++
       jsEscapeQuotes answers.agentDescription ++ regLit7 ++ answers.agentImage ++
       regLit8 ++ servicesCode answers ++ regLit9 ++ trustModelsCode answers ++
       regLit10 ++ chain.rpcUrl ++ regLit11 ++ monadChainSuffix chain ++ regLit12 ++
       monadChainSuffix chain ++ regLit13 ++ chain.name).data ++
      (regLit14.data ++ (chain.scanPath ++ regLit15).data) := by
    simp [generateMonadRegisterScript, regTail, data_append, List.append_assoc]
  rw [hng]
  exact occursInOrderL_append_left _ _ _
    (occursInOrderL_append_right _ _ _ base)

/-! ## Substring lemmas with bounded evaluation windows -/

theorem isPrefixOf_extend (n : List Char) : ∀ (t x : List Char),
    n.isPrefixOf t = true → n.isPrefixOf (t ++ x) = true := by
  induction n with
  | nil =>
    intro t x h
    simp [List.isPrefixOf]
  | cons a as ih =>
    intro t x h
    cases t with
    | nil => simp [List.isPrefixOf] at h
    | cons b bs =>
      rw [List.cons_append]
      simp only [List.isPrefixOf, Bool.and_eq_true, beq_iff_eq] at h ⊢
      exact ⟨h.1, ih bs x h.2⟩

theorem isPrefixOf_take_eq (n : List Char) : ∀ t : List Char,
    n.isPrefixOf t = n.isPrefixOf (t.take n.length) := by
  induction n with
  | nil =>
    intro t
    simp [List.isPrefixOf]
  | cons a as ih =>
    intro t
    cases t with
    | nil => simp
    | cons b bs =>
      rw [List.length_cons, List.take_succ_cons]
      simp only [List.isPrefixOf]
      rw [ih bs]

theorem contains_nil_needle : ∀ x : List Char, containsSeq ([] : List Char) x = true := by
  intro x
  cases x <;> simp [containsSeq, List.isPrefixOf, List.isEmpty]

theorem contains_append_left (n : List Char) : ∀ (t x : List Char),
    containsSeq n t = true → containsSeq n (t ++ x) = true := by
  intro t
  induction t with
  | nil =>
    intro x h
    have hn : n = [] := by
      cases n with
      | nil => rfl
      | cons c cs => simp [containsSeq, List.isEmpty] at h
    subst hn
    exact contains_nil_needle x
  | cons c t' ih =>
    intro x h
    rw [List.cons_append]
    simp only [containsSeq, Bool.or_eq_true] at h ⊢
    rcases h with h1 | h2
    · exact Or.inl (by rw [← List.cons_append]; exact isPrefixOf_extend n (c :: t') x h1)
    · exact Or.inr (ih x h2)

theorem contains_of_take (n b : List Char) (k : Nat)
    (h : containsSeq n (b.take k) = true) : containsSeq n b = true := by
  have hb : b = b.take k ++ b.drop k := (List.take_append_drop k b).symm
  rw [hb]
  exact contains_append_left n (b.take k) (b.drop k) h

theorem contains_true_tail (n : List Char) : ∀ (a b : List Char),
    containsSeq n b = true → containsSeq n (a ++ b) = true := by
  intro a
  induction a with
  | nil =>
    intro b h
    simpa using h
  | cons c a' ih =>
    intro b h
    rw [List.cons_append]
    simp only [containsSeq]
    rw [ih b h]
    simp

theorem containsSeq_append_split (n : List Char) : ∀ (a b : List Char),
    containsSeq n (a ++ b) =
      (containsSeq n (a ++ b.take (n.length - 1)) || containsSeq n b) := by
  intro a
  induction a with
  | nil =>
    intro b
    simp only [List.nil_append]
    cases hX : containsSeq n (b.take (n.length - 1)) with
    | false => simp
    | true =>
      have hY : containsSeq n b = true := contains_of_take n b _ hX
      simp [hY]
  | cons c a' ih =>
    intro b
    rw [List.cons_append, List.cons_append]
    simp only [containsSeq]
    rw [ih b]
    have hpre : n.isPrefixOf (c :: (a' ++ b)) =
        n.isPrefixOf (c :: (a' ++ b.take (n.length - 1))) := by
      rw [isPrefixOf_take_eq n (c :: (a' ++ b)),
        isPrefixOf_take_eq n (c :: (a' ++ b.take (n.length - 1)))]
      cases hn : n.length with
      | zero => simp
      | succ m =>
        rw [List.take_succ_cons, List.take_succ_cons]
        rw [List.take_append_eq_append_take, List.take_append_eq_append_take]
        rw [List.take_take]
        rw [Nat.min_eq_left (by omega)]
    rw [hpre, Bool.or_assoc]

theorem contains_false_step (n a b : List Char)
    (h1 : containsSeq n (a ++ b.take (n.length - 1)) = false)
    (h2 : containsSeq n b = false) :
    containsSeq n (a ++ b) = false := by
  rw [containsSeq_append_split, h1, h2]
  rfl

theorem contains_true_window (n a b : List Char)
    (h : containsSeq n (a ++ b.take (n.length - 1)) = true) :
    containsSeq n (a ++ b) = true := by
  rw [containsSeq_append_split, h, Bool.true_or]

/-- C7: the README is the fixed document with the `a2a` section present
exactly when the `a2a` feature is enabled, the `mcp` section (numbered 6 when
`a2a` is also enabled, else 5) exactly when `mcp` is enabled, and one
directory-tree entry per enabled feature; on the spec's end-to-end scenario
(`"Demo Agent"`, testnet) the `features = ["a2a"]` run contains the
"Start the A2A server" section, the `a2a-server.ts` tree entry, the
`start:a2a` script and the `express` dependency, and the `features = []` run
contains none of them. -/
theorem readme_feature_sections (answers : WizardAnswers) (chain : ChainConfig) :
    (generateMonadReadme answers chain =
      rmLit0 ++ answers.agentName ++ rmLit1 ++ answers.agentDescription ++
      rmLit2 ++ answers.agentWallet ++ rmLit3 ++ chain.name ++ rmLit4 ++
      (if hasFeature answers ("a2a") then rmA2ASection else "") ++
      (if hasFeature answers ("mcp") then rmMCPSection (hasFeature answers ("a2a")) else "") ++
      rmLit5 ++ (getMonadContracts answers.chain).identityRegistry ++
      rmLit6 ++ (getMonadContracts answers.chain).reputationRegistry ++
      rmLit7 ++ agentSlug answers ++ rmLit8 ++
      (if hasFeature answers ("a2a") then treeA2AEntry else "") ++
      (if hasFeature answers ("mcp") then treeMCPEntry else "") ++
      rmLit9) ∧
    strContains rmA2ASection ("Start the A2A server") = true ∧
    strContains (rmMCPSection true) ("### 6. Start the MCP server") = true ∧
    strContains (rmMCPSection false) ("### 5. Start the MCP server") = true ∧
    strContains treeA2AEntry ("a2a-server.ts") = true ∧
    strContains treeMCPEntry ("mcp-server.ts") = true ∧
    strContains (generateMonadReadme demoAnswersA2A demoChain) ("Start the A2A server") = true ∧
    strContains (generateMonadReadme demoAnswersNone demoChain) ("Start the A2A server") = false ∧
    strContains (generateMonadReadme demoAnswersA2A demoChain) ("a2a-server.ts") = true ∧
    strContains (generateMonadReadme demoAnswersNone demoChain) ("a2a-server.ts") = false ∧
    strContains (generateMonadReadme demoAnswersA2A demoChain) ("mcp-server.ts") = false ∧
    strContains (generateMonadReadme demoAnswersBoth demoChain) ("### 6. Start the MCP server") = true ∧
    strContains (generateMonadReadme demoAnswersMCP demoChain) ("### 5. Start the MCP server") = true ∧
    strContains (generateMonadReadme demoAnswersMCP demoChain) ("### 6. Start the MCP server") = false ∧
    strContains (generateMonadPackageJson demoAnswersA2A) ("\x22start:a2a\x22") = true ∧
    strContains (generateMonadPackageJson demoAnswersA2A) ("\x22express\x22") = true ∧
    strContains (generateMonadPackageJson demoAnswersNone) ("\x22start:a2a\x22") = false ∧
    strContains (generateMonadPackageJson demoAnswersNone) ("\x22express\x22") = false := by
  have hA2A_t : hasFeature demoAnswersA2A ("a2a") = true := by decide
  have hA2A_m : hasFeature demoAnswersA2A ("mcp") = false := by decide
  have hN_a : hasFeature demoAnswersNone ("a2a") = false := by decide
  have hN_m : hasFeature demoAnswersNone ("mcp") = false := by decide
  have hB_a : hasFeature demoAnswersBoth ("a2a") = true := by decide
  have hB_m : hasFeature demoAnswersBoth ("mcp") = true := by decide
  have hM_a : hasFeature demoAnswersMCP ("a2a") = false := by decide
  have hM_m : hasFeature demoAnswersMCP ("mcp") = true := by decide
  have hempty : ("" : String).data = ([] : List Char) := rfl
  refine ⟨rfl, by decide, by decide, by decide, by decide, by decide,
    ?_, ?_, ?_, ?_, ?_, ?_, ?_, ?_, ?_, ?_, ?_, ?_⟩
  · simp only [strContains, generateMonadReadme, condStr, rmMCPSection, hA2A_t, hA2A_m,
      if_true, if_false, data_append, hempty, List.append_assoc, List.nil_append,
      List.append_nil]
    repeat first
    | exact contains_true_window _ _ _ (by decide)
    | apply contains_true_tail
  · simp only [strContains, generateMonadReadme, condStr, rmMCPSection, hN_a, hN_m,
      if_true, if_false, data_append, hempty, List.append_assoc, List.nil_append,
      List.append_nil]
    repeat refine contains_false_step _ _ _ (by decide) ?_
    decide
  · simp only [strContains, generateMonadReadme, condStr, rmMCPSection, hA2A_t, hA2A_m,
      if_true, if_false, data_append, hempty, List.append_assoc, List.nil_append,
      List.append_nil]
    repeat first
    | exact contains_true_window _ _ _ (by decide)
    | apply contains_true_tail
  · simp only [strContains, generateMonadReadme, condStr, rmMCPSection, hN_a, hN_m,
      if_true, if_false, data_append, hempty, List.append_assoc, List.nil_append,
      List.append_nil]
    repeat refine contains_false_step _ _ _ (by decide) ?_
    decide
  · simp only [strContains, generateMonadReadme, condStr, rmMCPSection, hA2A_t, hA2A_m,
      if_true, if_false, data_append, hempty, List.append_assoc, List.nil_append,
      List.append_nil]
    repeat refine contains_false_step _ _ _ (by decide) ?_
    decide
  · simp only [strContains, generateMonadReadme, condStr, rmMCPSection, hB_a, hB_m,
      if_true, if_false, data_append, hempty, List.append_assoc, List.nil_append,
      List.append_nil]
    repeat first
    | exact contains_true_window _ _ _ (by decide)
    | apply contains_true_tail
  · simp only [strContains, generateMonadReadme, condStr, rmMCPSection, hM_a, hM_m,
      if_true, if_false, data_append, hempty, List.append_assoc, List.nil_append,
      List.append_nil]
    repeat first
    | exact contains_true_window _ _ _ (by decide)
    | apply contains_true_tail
  · simp only [strContains, generateMonadReadme, condStr, rmMCPSection, hM_a, hM_m,
      if_true, if_false, data_append, hempty, List.append_assoc, List.nil_append,
      List.append_nil]
    repeat refine contains_false_step _ _ _ (by decide) ?_
    decide
  · decide
  · decide
  · decide
  · decide

/-! ## Lemmas for the line structure of the environment template -/

theorem splitNl_cons_nl (b : List Char) : splitNl ('\n' :: b) = [] :: splitNl b := by
  simp [splitNl]

theorem splitNl_line_append : ∀ (a b : List Char), (∀ c ∈ a, c ≠ '\n') →
    splitNl (a ++ '\n' :: b) = a :: splitNl b := by
  intro a
  induction a with
  | nil =>
    intro b h
    simp [splitNl]
  | cons c a' ih =>
    intro b h
    have hc : c ≠ '\n' := h c (List.mem_cons_self c a')
    have ha' : ∀ d ∈ a', d ≠ '\n' := fun d hd => h d (List.mem_cons_of_mem c hd)
    rw [List.cons_append, splitNl]
    rw [if_neg hc]
    rw [ih b ha']

theorem splitNl_two_append (a b rest : List Char) (ha : ∀ c ∈ a, c ≠ '\n')
    (hb : ∀ c ∈ b, c ≠ '\n') :
    splitNl (a ++ (b ++ '\n' :: rest)) = (a ++ b) :: splitNl rest := by
  rw [← List.append_assoc]
  exact splitNl_line_append (a ++ b) rest
    (fun c hc => (List.mem_append.mp hc).elim (ha c) (hb c))

theorem isPrefixOf_append_self (l t : List Char) : l.isPrefixOf (l ++ t) = true := by
  induction l with
  | nil => simp [List.isPrefixOf]
  | cons a as ih => simp [List.isPrefixOf, ih]

theorem isPrefixOf_append_false_take : ∀ (v w x : List Char),
    (v.take w.length).isPrefixOf w = false → v.isPrefixOf (w ++ x) = false := by
  intro v
  induction v with
  | nil =>
    intro w x h
    simp [List.isPrefixOf] at h
  | cons a as ih =>
    intro w x h
    cases w with
    | nil => simp [List.isPrefixOf] at h
    | cons b bs =>
      rw [List.cons_append]
      rw [List.length_cons, List.take_succ_cons] at h
      by_cases hab : a = b
      · subst hab
        have h2 : (as.take bs.length).isPrefixOf bs = false := by
          simpa [List.isPrefixOf] using h
        simp [List.isPrefixOf, ih bs x h2]
      · simp [List.isPrefixOf, hab]

/-- Counterexample for C4: the claim quantifies over every answers value, but
a `generatedPrivateKey` containing a newline makes the template assign
`RPC_URL=` on two lines, and a present-but-empty key is not embedded verbatim
(the placeholder appears instead), so no line is `PRIVATE_KEY=` alone. -/
theorem env_one_line_counterexample :
    (envLinesOf (generateMonadEnv newlineKeyAnswers demoChain)).countP
      (fun l => (("RPC_URL=").data).isPrefixOf l) = 2 ∧
    emptyKeyAnswers.generatedPrivateKey = some "" ∧
    (envLinesOf (generateMonadEnv emptyKeyAnswers demoChain)).countP
      (fun l => l == ("PRIVATE_KEY=").data) = 0 := by
  refine ⟨by decide, rfl, by decide⟩

/-- C4 (amended): when the interpolated values (the private-key value,
`chain.name`, `chain.rpcUrl`) contain no newline, the environment template's
lines are exactly the fixed twelve-line sequence — each of the four variables
is assigned on exactly one line, in the order `PRIVATE_KEY`, `RPC_URL`,
`PINATA_JWT`, `OPENAI_API_KEY` — the `PRIVATE_KEY` value is
`generatedPrivateKey` verbatim when present and non-empty (else the
placeholder), `RPC_URL` is `chain.rpcUrl`, and `PINATA_JWT` /
`OPENAI_API_KEY` are the placeholder literals. -/
theorem env_lines_fixed_order (answers : WizardAnswers) (chain : ChainConfig)
    (hpk : noNl (privateKeyValue answers)) (hname : noNl chain.name)
    (hrpc : noNl chain.rpcUrl) :
    envLinesOf (generateMonadEnv answers chain) =
      [("# Required for registration").data,
       ("PRIVATE_KEY=").data ++ (privateKeyValue answers).data,
       [],
       ("# RPC URL for ").data ++ chain.name.data,
       ("RPC_URL=").data ++ chain.rpcUrl.data,
       [],
       ("# Pinata JWT for IPFS upload (get from https://pinata.cloud)").data,
       ("PINATA_JWT=your_pinata_jwt_here").data,
       [],
       ("# OpenAI API key for LLM agent").data,
       ("OPENAI_API_KEY=your_openai_api_key_here").data,
       []] ∧
    (envLinesOf (generateMonadEnv answers chain)).countP
      (fun l => (("PRIVATE_KEY=").data).isPrefixOf l) = 1 ∧
    (envLinesOf (generateMonadEnv answers chain)).countP
      (fun l => (("RPC_URL=").data).isPrefixOf l) = 1 ∧
    (envLinesOf (generateMonadEnv answers chain)).countP
      (fun l => (("PINATA_JWT=").data).isPrefixOf l) = 1 ∧
    (envLinesOf (generateMonadEnv answers chain)).countP
      (fun l => (("OPENAI_API_KEY=").data).isPrefixOf l) = 1 ∧
    (∀ s, answers.generatedPrivateKey = some s → s ≠ "" →
      privateKeyValue answers = s) ∧
    (answers.generatedPrivateKey = none →
      privateKeyValue answers = "your_private_key_here") := by
  have hsplit : envLinesOf (generateMonadEnv answers chain) =
      [("# Required for registration").data,
       ("PRIVATE_KEY=").data ++ (privateKeyValue answers).data,
       [],
       ("# RPC URL for ").data ++ chain.name.data,
       ("RPC_URL=").data ++ chain.rpcUrl.data,
       [],
       ("# Pinata JWT for IPFS upload (get from https://pinata.cloud)").data,
       ("PINATA_JWT=your_pinata_jwt_here").data,
       [],
       ("# OpenAI API key for LLM agent").data,
       ("OPENAI_API_KEY=your_openai_api_key_here").data,
       []] := by
    show splitNl (generateMonadEnv answers chain).data = _
    have hd : (generateMonadEnv answers chain).data =
        (("# Required for registration").data ++ ('\n' :: (("PRIVATE_KEY=").data ++ ((privateKeyValue answers).data ++ ('\n' :: '\n' :: (("# RPC URL for ").data ++ (chain.name.data ++ ('\n' :: (("RPC_URL=").data ++ (chain.rpcUrl.data ++ ('\n' :: '\n' :: (("# Pinata JWT for IPFS upload (get from https://pinata.cloud)").data ++ ('\n' :: (("PINATA_JWT=your_pinata_jwt_here").data ++ ('\n' :: '\n' :: (("# OpenAI API key for LLM agent").data ++ ('\n' :: (("OPENAI_API_KEY=your_openai_api_key_here").data ++ ('\n' :: ([] : List Char)))))))))))))))))))) := by
      simp [generateMonadEnv, envLit0, envLit1, envLit2, envLit3, data_append,
        List.append_assoc]
    rw [hd]
    rw [splitNl_line_append (("# Required for registration").data) _ (by decide)]
    rw [splitNl_two_append (("PRIVATE_KEY=").data) ((privateKeyValue answers).data) _
      (by decide) hpk]
    rw [splitNl_cons_nl]
    rw [splitNl_two_append (("# RPC URL for ").data) (chain.name.data) _ (by decide) hname]
    rw [splitNl_two_append (("RPC_URL=").data) (chain.rpcUrl.data) _ (by decide) hrpc]
    rw [splitNl_cons_nl]
    rw [splitNl_line_append
      (("# Pinata JWT for IPFS upload (get from https://pinata.cloud)").data) _ (by decide)]
    rw [splitNl_line_append (("PINATA_JWT=your_pinata_jwt_here").data) _ (by decide)]
    rw [splitNl_cons_nl]
    rw [splitNl_line_append (("# OpenAI API key for LLM agent").data) _ (by decide)]
    rw [splitNl_line_append (("OPENAI_API_KEY=your_openai_api_key_here").data) _ (by decide)]
    rfl
  have tPK : (("PRIVATE_KEY=").data).isPrefixOf
      (("PRIVATE_KEY=").data ++ (privateKeyValue answers).data) = true :=
    isPrefixOf_append_self _ _
  have tR : (("RPC_URL=").data).isPrefixOf
      (("RPC_URL=").data ++ chain.rpcUrl.data) = true :=
    isPrefixOf_append_self _ _
  have fPK1 : (("PRIVATE_KEY=").data).isPrefixOf
      (("# RPC URL for ").data ++ chain.name.data) = false :=
    isPrefixOf_append_false_take _ _ _ (by decide)
  have fPK2 : (("PRIVATE_KEY=").data).isPrefixOf
      (("RPC_URL=").data ++ chain.rpcUrl.data) = false :=
    isPrefixOf_append_false_take _ _ _ (by decide)
  have fR1 : (("RPC_URL=").data).isPrefixOf
      (("PRIVATE_KEY=").data ++ (privateKeyValue answers).data) = false :=
    isPrefixOf_append_false_take _ _ _ (by decide)
  have fR2 : (("RPC_URL=").data).isPrefixOf
      (("# RPC URL for ").data ++ chain.name.data) = false :=
    isPrefixOf_append_false_take _ _ _ (by decide)
  have fPJ1 : (("PINATA_JWT=").data).isPrefixOf
      (("PRIVATE_KEY=").data ++ (privateKeyValue answers).data) = false :=
    isPrefixOf_append_false_take _ _ _ (by decide)
  have fPJ2 : (("PINATA_JWT=").data).isPrefixOf
      (("# RPC URL for ").data ++ chain.name.data) = false :=
    isPrefixOf_append_false_take _ _ _ (by decide)
  have fPJ3 : (("PINATA_JWT=").data).isPrefixOf
      (("RPC_URL=").data ++ chain.rpcUrl.data) = false :=
    isPrefixOf_append_false_take _ _ _ (by decide)
  have fO1 : (("OPENAI_API_KEY=").data).isPrefixOf
      (("PRIVATE_KEY=").data ++ (privateKeyValue answers).data) = false :=
    isPrefixOf_append_false_take _ _ _ (by decide)
  have fO2 : (("OPENAI_API_KEY=").data).isPrefixOf
      (("# RPC URL for ").data ++ chain.name.data) = false :=
    isPrefixOf_append_false_take _ _ _ (by decide)
  have fO3 : (("OPENAI_API_KEY=").data).isPrefixOf
      (("RPC_URL=").data ++ chain.rpcUrl.data) = false :=
    isPrefixOf_append_false_take _ _ _ (by decide)
  refine ⟨hsplit, ?_, ?_, ?_, ?_, ?_, ?_⟩
  · rw [hsplit]
    simp only [List.countP_cons, List.countP_nil, tPK, fPK1, fPK2]
    decide
  · rw [hsplit]
    simp only [List.countP_cons, List.countP_nil, tR, fR1, fR2]
    decide
  · rw [hsplit]
    simp only [List.countP_cons, List.countP_nil, fPJ1, fPJ2, fPJ3]
    decide
  · rw [hsplit]
    simp only [List.countP_cons, List.countP_nil, fO1, fO2, fO3]
    decide
  · intro s hs hne
    have hemp : s.isEmpty = false := by
      cases s with
      | mk l =>
        cases l with
        | nil => exact absurd rfl hne
        | cons c cs =>
          simp [String.isEmpty, String.endPos, String.utf8ByteSize,
            String.utf8ByteSize.go, String.Pos.ext_iff]
          have := Char.utf8Size_pos c
          omega
    simp [privateKeyValue, hs, hemp]
  · intro h
    simp [privateKeyValue, h]

/-- Witness for C4: the amended theorem at the sample answers and testnet
chain (all interpolated values newline-free). -/
theorem env_lines_fixed_order_witness :
    envLinesOf (generateMonadEnv demoAnswersA2A demoChain) =
      [("# Required for registration").data,
       ("PRIVATE_KEY=").data ++ (privateKeyValue demoAnswersA2A).data,
       [],
       ("# RPC URL for ").data ++ demoChain.name.data,
       ("RPC_URL=").data ++ demoChain.rpcUrl.data,
       [],
       ("# Pinata JWT for IPFS upload (get from https://pinata.cloud)").data,
       ("PINATA_JWT=your_pinata_jwt_here").data,
       [],
       ("# OpenAI API key for LLM agent").data,
       ("OPENAI_API_KEY=your_openai_api_key_here").data,
       []] :=
  (env_lines_fixed_order demoAnswersA2A demoChain (by decide) (by decide) (by decide)).1
